import Mathlib

set_option maxRecDepth 8000

/-!
Shallow embedding of the chat-server core (message validator, message
processor, LLM rate-limit latch, connection registry, heartbeat scanner,
media handler) translated from the Python sources under src/src/server.
Wall-clock instants are modelled as integers (seconds); Python dict keys
that may be absent are modelled as Option fields.  External I/O (database
writes, file writes, the network call to the LLM) is modelled by recording
the would-be effects in the result value or by passing the outcome in as an
argument.
-/

/-- Message types of message_validator.MessageType (a str-valued enum). -/
inductive MessageType
  | text
  | image
  | video
  | voice
  | system
  | heartbeat
deriving DecidableEq, Repr

/-- The str value of each enum member (message_validator.MessageType). -/
def MessageType.value : MessageType → String
  | .text => "text"
  | .image => "image"
  | .video => "video"
  | .voice => "voice"
  | .system => "system"
  | .heartbeat => "heartbeat"

/-- The list comprehension [t.value for t in MessageType] used at
message_validator.py line 95. -/
def messageTypeValues : List String :=
  ["text", "image", "video", "voice", "system", "heartbeat"]

/-- MessageType(message_type_str): succeeds exactly on the enum values. -/
def parseMessageType : String → Option MessageType
  | "text" => some .text
  | "image" => some .image
  | "video" => some .video
  | "voice" => some .voice
  | "system" => some .system
  | "heartbeat" => some .heartbeat
  | _ => none

/-- An inbound content frame (the message_data dict).  Each Option field is
none when the corresponding key is absent.  The timestamp is modelled as an
already-parsed instant (ISO-8601 parsing itself is outside the claims); a
missing or unparseable timestamp is none, in which case the validator
substitutes the current wall clock. -/
structure FrameData where
  type : Option String
  message_type : Option String
  content : Option String
  filename : Option String
  timestamp : Option Int
  is_system : Bool
deriving DecidableEq

/-- The validated record message_validator.Message. -/
structure Message where
  client_id : String
  content : String
  message_type : MessageType
  client_timestamp : Int
  timezone : String
  filename : Option String := none
  binary_content : Option String := none
  is_accepted : Bool := true
  status_message : Option String := none
  is_system : Bool := false
deriving DecidableEq, Repr

/-- Python truthiness of an optional string: None and the empty string are
falsy (the code tests `not content`, `not filename`). -/
def falsyOpt (o : Option String) : Bool := o.getD "" = ""

/-- Python `a or b` over an optional string a (absent key gives None) and a
default b: a is used only when present and non-empty. -/
def firstTruthyStr (a : Option String) (b : String) : String :=
  match a with
  | some s => if s = "" then b else s
  | none => b

/-- message_type_str of message_validator.py line 81:
message_data.get("type") or message_data.get("message_type", "text"). -/
def frameTypeStr (f : FrameData) : String :=
  firstTruthyStr f.type (f.message_type.getD "text")

/-- message_validator._is_time_allowed.  The conversion of the timestamp to
the declared timezone (zoneinfo, with fallback to the machine timezone on
error) is abstracted into the argument tzHour, which yields the local hour
field of an instant under a timezone name. -/
def is_time_allowed (tzHour : Int → String → Nat) (current_time : Int)
    (message_type : MessageType) (timezone : String) : Bool × String :=
  let current_hour := tzHour current_time timezone
  match message_type with
  | .text =>
      if 5 ≤ current_hour ∧ current_hour < 24 then (true, "")
      else (false, "Text messages are only accepted between 5 AM and midnight")
  | .voice =>
      if 8 ≤ current_hour ∧ current_hour < 12 then (true, "")
      else (false, "Voice messages are only accepted between 8 AM and 12 PM")
  | .video =>
      if 20 ≤ current_hour ∧ current_hour < 24 then (true, "")
      else (false, "Video messages are only accepted between 8 PM and midnight")
  | _ => (true, "")

/-- message_validator.validate_message.  A raised ValueError is modelled as
Except.error carrying the exception text.  The enum interpolation in the
missing-filename message is rendered with the member value (the exact
Python rendering of the enum member is version-dependent and not
claim-relevant). -/
def validate_message (tzHour : Int → String → Nat) (now : Int)
    (message_data : FrameData) (client_id : String) (timezone : String) :
    Except String Message :=
  let message_type_str := frameTypeStr message_data
  if message_type_str = "system" ∨ message_type_str = "heartbeat" ∨
      message_data.is_system then
    .ok { client_id := client_id
          content := message_data.content.getD ""
          message_type := .system
          client_timestamp := now
          timezone := timezone
          is_system := true }
  else if message_data.message_type = none ∧
      ¬ (message_type_str ∈ messageTypeValues) then
    .error "Message type is required"
  else
    match parseMessageType message_type_str with
    | none => .error ("Invalid message type: " ++ message_type_str)
    | some message_type =>
      let content := message_data.content.getD ""
      let filename := message_data.filename
      if (message_type = .image ∨ message_type = .video ∨ message_type = .voice)
          ∧ falsyOpt filename then
        .error ("Filename is required for " ++ message_type.value ++ " messages")
      else if content = "" ∧ falsyOpt filename then
        .error "Message content cannot be empty"
      else
        let client_timestamp := message_data.timestamp.getD now
        let cleared :=
          if message_type = .image ∨ message_type = .video ∨ message_type = .voice
          then ("", some content) else (content, (none : Option String))
        let allowed := is_time_allowed tzHour client_timestamp message_type timezone
        .ok { client_id := client_id
              content := cleared.1
              message_type := message_type
              client_timestamp := client_timestamp
              timezone := timezone
              filename := filename
              binary_content := cleared.2
              is_accepted := allowed.1
              status_message := if allowed.1 then none else some allowed.2
              is_system := message_data.is_system }

/-- chat_server.websocket_endpoint lines 113-115: default the message_type
key to "text" when absent. -/
def ensure_message_type (message_data : FrameData) : FrameData :=
  if message_data.message_type = none then
    { message_data with message_type := some "text" }
  else message_data

/-! ## LLM rate-limit latch (openai_client.py) -/

/-- openai_client.OpenAIClient.rate_limit_duration = timedelta(minutes=30),
in seconds. -/
def rate_limit_duration : Int := 30 * 60

/-- The dict returned by OpenAIClient.get_rate_limit_status. -/
structure RateLimitStatus where
  rate_limited : Bool
  time_remaining : Option Int
deriving DecidableEq, Repr

/-- The latch state: rate_limit_hit and rate_limit_time are set and cleared
together in the source, so the pair is modelled as an optional latch
instant (none when rate_limit_hit is False). -/
def RateLimitState := Option Int

/-- OpenAIClient.is_rate_limited (lines 27-38): returns the flag and the
possibly reset latch state; the latch clears when the cooldown elapsed. -/
def is_rate_limited (st : RateLimitState) (now : Int) : Bool × RateLimitState :=
  match st with
  | none => (false, none)
  | some t =>
      if now - t > rate_limit_duration then (false, none)
      else (true, some t)

/-- OpenAIClient.get_rate_limit_status (lines 107-121): reads the latch
without any expiry check and without mutating it. -/
def get_rate_limit_status (st : RateLimitState) (now : Int) : RateLimitStatus :=
  match st with
  | none => { rate_limited := false, time_remaining := none }
  | some t => { rate_limited := true
                time_remaining := some (rate_limit_duration - (now - t)) }

/-! ## Message processor (message_processor.py) -/

/-- One emitted reply: content is the body carried in the reply frame (the
"message" key for rejection and error frames, the "content" key for normal
reply frames). -/
structure ReplyData where
  content : String
  reply_type : String
deriving DecidableEq, Repr

/-- The message row written by db.save_message, restricted to the fields
the processor chooses (the rest are copied verbatim from the record). -/
structure SavedMsg where
  content : String
  is_accepted : Bool
  status_message : String
deriving DecidableEq, Repr

/-- The observable outcome of MessageProcessor.process_message: the reply
list returned to the session handler, the message row persisted by
db.save_message (none when no save happened), and the reply rows persisted
by db.save_reply in order. -/
structure ProcResult where
  replies : List ReplyData
  saved : Option SavedMsg
  savedReplies : List ReplyData
deriving DecidableEq, Repr

/-- Static media reply URL for voice (message_processor.py line 134). -/
def mp3Path : String := "/media/static_replies/reply.mp3"

/-- Static media reply URL for image (message_processor.py line 140). -/
def pngPath : String := "/media/static_replies/reply.png"

/-- The busy reply body of message_processor.py lines 76-77:
minutes_remaining = int(time_remaining / 60) + 1, a truncating division
(Int.tdiv truncates toward zero like Python int() on a float quotient). -/
def busyReply (time_remaining : Int) (original : String) : String :=
  "System is currently busy. Please try again in " ++
    toString (Int.tdiv time_remaining 60 + 1) ++
    " minutes. (Original message: " ++ original.take 30 ++ "...)"

/-- The text reply body in the not-rate-limited branch (lines 94-111):
for text messages the LLM response (with the empty-response fallback of
lines 106-107 and the exception fallback of line 111), for other kinds the
canned acknowledgement of line 105. -/
def textReplyBody (message : Message) (llmResponse : Except String String) :
    String :=
  match message.message_type with
  | .text =>
      match llmResponse with
      | .ok s =>
          if s = "" then
            "Received your " ++ message.message_type.value ++ " message: \"" ++
              message.content.take 50 ++ "...\""
          else s
      | .error _ =>
          "Sorry, I couldn't process your request at the moment. (Received: " ++
            message.content.take 30 ++ "...)"
  | mt => "Received your " ++ mt.value ++ " message"

/-- Lines 63-184 of process_message, after the record was saved: the sleep
of lines 68-73 has no observable effect on the result and is omitted. -/
def process_after_save (message : Message) (content_to_save : String)
    (rateStatus : RateLimitStatus) (llmResponse : Except String String) :
    ProcResult :=
  let saved : SavedMsg :=
    { content := content_to_save
      is_accepted := message.is_accepted
      status_message :=
        if falsyOpt message.status_message then "Message accepted"
        else message.status_message.getD "" }
  if rateStatus.rate_limited then
    let body := busyReply (rateStatus.time_remaining.getD 0) message.content
    { replies := [⟨body, "text"⟩]
      saved := some saved
      savedReplies := [⟨body, "text"⟩] }
  else
    let body := textReplyBody message llmResponse
    let rs : List ReplyData :=
      ⟨body, "text"⟩ ::
        (if message.message_type = .voice ∨ message.message_type = .video ∨
            message.message_type = .image then
          ⟨mp3Path, "voice"⟩ ::
            (if message.message_type = .video ∨ message.message_type = .image
             then [⟨pngPath, "image"⟩] else [])
         else [])
    { replies := rs, saved := some saved, savedReplies := rs }

/-- The body of process_message inside the try block (lines 25-184), with
raised ValueErrors surfaced as Except.error.  mediaResult is the value
returned by media_handler.save_media for media kinds (ignored otherwise),
llmResponse the outcome of openai_client.get_chat_response. -/
def process_message_core (message : Message) (mediaResult : Option String)
    (rateStatus : RateLimitStatus) (llmResponse : Except String String) :
    Except String ProcResult :=
  if message.message_type = .image ∨ message.message_type = .video ∨
      message.message_type = .voice then
    if falsyOpt message.filename then
      .error ("Filename is required for " ++ message.message_type.value ++
        " message")
    else if falsyOpt message.binary_content then
      .error ("Binary content is required for " ++ message.message_type.value ++
        " message")
    else
      match mediaResult with
      | none => .error ("Failed to save " ++ message.message_type.value ++ " file")
      | some media_path =>
          .ok (process_after_save message media_path rateStatus llmResponse)
  else
    .ok (process_after_save message message.content rateStatus llmResponse)

/-- MessageProcessor.process_message.  A rejected record returns the single
rejection reply before any database write (lines 27-31); any exception in
the body is converted into a single synthetic error reply (lines 186-191). -/
def process_message (message : Message) (mediaResult : Option String)
    (rateStatus : RateLimitStatus) (llmResponse : Except String String) :
    ProcResult :=
  if message.is_accepted = false then
    { replies := [⟨message.status_message.getD "", "text"⟩]
      saved := none
      savedReplies := [] }
  else
    match process_message_core message mediaResult rateStatus llmResponse with
    | .ok r => r
    | .error e =>
        { replies := [⟨"Error processing message: " ++ e, "text"⟩]
          saved := none
          savedReplies := [] }

/-- Number of replies of a given reply_type in a reply list. -/
def countType (reply_type : String) (rs : List ReplyData) : Nat :=
  (rs.filter (fun r => r.reply_type == reply_type)).length

/-! ## Admission control (connection_manager.py, counters) -/

/-- connection_manager.ConnectionManager.MAX_SENDING. -/
def MAX_SENDING : Nat := 50

/-- connection_manager.ConnectionManager.MAX_PROCESSING. -/
def MAX_PROCESSING : Nat := 500

/-- The admission-control state: the Python set sending_clients and the
counter messages_processing.  The counter is a natural number; the guard in
decrement_processing keeps it from going below zero in the source. -/
structure Registry where
  sending_clients : Finset String
  messages_processing : Nat
deriving DecidableEq

/-- The state at construction (empty set, zero counter). -/
def initRegistry : Registry := { sending_clients := ∅, messages_processing := 0 }

/-- ConnectionManager.start_sending (lines 104-109). -/
def start_sending (r : Registry) (client_id : String) : Bool × Registry :=
  if MAX_SENDING ≤ r.sending_clients.card then (false, r)
  else (true, { r with sending_clients := insert client_id r.sending_clients })

/-- ConnectionManager.stop_sending (lines 111-114). -/
def stop_sending (r : Registry) (client_id : String) : Registry :=
  if client_id ∈ r.sending_clients then
    { r with sending_clients := r.sending_clients.erase client_id }
  else r

/-- ConnectionManager.increment_processing (lines 116-121): the
acquire_processing_slot operation. -/
def increment_processing (r : Registry) : Bool × Registry :=
  if MAX_PROCESSING ≤ r.messages_processing then (false, r)
  else (true, { r with messages_processing := r.messages_processing + 1 })

/-- ConnectionManager.decrement_processing (lines 123-126): the
release_processing_slot operation. -/
def decrement_processing (r : Registry) : Registry :=
  if 0 < r.messages_processing then
    { r with messages_processing := r.messages_processing - 1 }
  else r

/-- An admission-control operation. -/
inductive RegOp
  | start (client_id : String)
  | stop (client_id : String)
  | acquire
  | release

/-- Apply one operation to the registry (the returned booleans do not change
the state). -/
def applyRegOp (r : Registry) : RegOp → Registry
  | .start c => (start_sending r c).2
  | .stop c => stop_sending r c
  | .acquire => (increment_processing r).2
  | .release => decrement_processing r

/-- Apply a sequence of admission-control operations from a start state. -/
def applyRegOps (r : Registry) (ops : List RegOp) : Registry :=
  ops.foldl applyRegOp r

/-! ## Heartbeat liveness (connection_manager.py, scanner) -/

/-- connection_manager.HEARTBEAT_INTERVAL (seconds). -/
def HEARTBEAT_INTERVAL : Int := 30

/-- connection_manager.HEARTBEAT_TIMEOUT (seconds). -/
def HEARTBEAT_TIMEOUT : Int := 60

/-- The liveness state: the active_connections keys and the last_heartbeat
dict (none when the client has no entry).  The timezone map and the
transport objects carry no liveness information and are omitted. -/
structure ConnState where
  active_connections : Finset String
  last_heartbeat : String → Option Int

/-- One pass of the _heartbeat_loop body (lines 136-161) at instant now:
a client with a last_heartbeat older than HEARTBEAT_TIMEOUT is stale; one
older than HEARTBEAT_INTERVAL is pinged and becomes stale when the send
fails, which happens only for clients the scanner can reach in
active_connections (pingFails says which sends fail).  The loop first
collects the stale set and then disconnects each member, so staleness is
decided on the pre-pass state. -/
def staleB (st : ConnState) (now : Int) (pingFails : String → Bool)
    (c : String) : Bool :=
  match st.last_heartbeat c with
  | none => false
  | some t =>
      decide (now - t > HEARTBEAT_TIMEOUT) ||
        (decide (now - t > HEARTBEAT_INTERVAL) &&
          decide (c ∈ st.active_connections) && pingFails c)

/-- The state after one scanner pass: every stale client is evicted via
disconnect, which removes it from active_connections and last_heartbeat. -/
def heartbeat_scan (st : ConnState) (now : Int) (pingFails : String → Bool) :
    ConnState :=
  { active_connections :=
      st.active_connections.filter (fun c => staleB st now pingFails c = false)
    last_heartbeat := fun c =>
      if staleB st now pingFails c then none else st.last_heartbeat c }

/-- Connection-lifecycle operations: connect (adds to active_connections,
lines 24-29), touch (start_heartbeat at line 33 and heartbeat at line 130,
both set last_heartbeat to now), disconnect (lines 39-60), and a scanner
pass. -/
inductive ConnOp
  | connect (client_id : String)
  | touch (client_id : String) (now : Int)
  | disconnect (client_id : String)
  | scan (now : Int) (pingFails : String → Bool)

/-- Apply one connection-lifecycle operation. -/
def applyConnOp (st : ConnState) : ConnOp → ConnState
  | .connect c =>
      { st with active_connections := insert c st.active_connections }
  | .touch c t =>
      { st with last_heartbeat := fun x =>
          if x = c then some t else st.last_heartbeat x }
  | .disconnect c =>
      { active_connections := st.active_connections.erase c
        last_heartbeat := fun x => if x = c then none else st.last_heartbeat x }
  | .scan now pingFails => heartbeat_scan st now pingFails

/-- Apply a sequence of connection-lifecycle operations. -/
def applyConnOps (st : ConnState) (ops : List ConnOp) : ConnState :=
  ops.foldl applyConnOp st

/-- Whether an operation reconnects the given client. -/
def isConnectOf (c : String) : ConnOp → Bool
  | .connect c2 => c == c2
  | _ => false

/-! ## Media handler (media_handler.py) -/

/-- The value of a base64 alphabet character, none for other characters. -/
def b64Char (c : Char) : Option Nat :=
  if 'A' ≤ c ∧ c ≤ 'Z' then some (c.toNat - 65)
  else if 'a' ≤ c ∧ c ≤ 'z' then some (c.toNat - 97 + 26)
  else if '0' ≤ c ∧ c ≤ '9' then some (c.toNat - 48 + 52)
  else if c = '+' then some 62
  else if c = '/' then some 63
  else none

/-- The non-strict base64 decoding loop of CPython binascii.a2b_base64, as
called by base64.b64decode: characters outside the alphabet are skipped, a
pad character completes the current quad once at least two data characters
of it were seen (further input is then ignored), and input ending inside a
quad is an error.  State: remaining characters, quad position, leftover
bits, pads seen in the current quad, output bytes in reverse. -/
def b64Loop : List Char → Nat → Nat → Nat → List Nat → Option (List Nat)
  | [], quad_pos, _, _, acc =>
      if quad_pos = 0 then some acc.reverse else none
  | c :: rest, quad_pos, leftchar, pads, acc =>
      if c = '=' then
        if 2 ≤ quad_pos ∧ 4 ≤ quad_pos + (pads + 1) then some acc.reverse
        else b64Loop rest quad_pos leftchar
          (if 2 ≤ quad_pos then pads + 1 else pads) acc
      else
        match b64Char c with
        | none => b64Loop rest quad_pos leftchar pads acc
        | some v =>
            match quad_pos with
            | 0 => b64Loop rest 1 v 0 acc
            | 1 => b64Loop rest 2 (v % 16) 0 ((leftchar * 4 + v / 16) :: acc)
            | 2 => b64Loop rest 3 (v % 4) 0 ((leftchar * 16 + v / 4) :: acc)
            | _ => b64Loop rest 0 0 0 ((leftchar * 64 + v) :: acc)

/-- base64.b64decode on a str argument: the text must be ASCII (else
ValueError), then the bytes are decoded non-strictly; none models a raised
error. -/
def b64decode (s : String) : Option (List Nat) :=
  if s.data.any (fun c => 128 ≤ c.toNat) then none
  else b64Loop s.data 0 0 0 []

/-- The content argument of MediaHandler.save_media: a str (base64 text), a
bytes payload, a dict without the content key, or a dict whose content key
holds another such value. -/
inductive MediaContent
  | str (s : String)
  | bytes (b : List Nat)
  | dictEmpty
  | dictVal (inner : MediaContent)
deriving DecidableEq

/-- save_media lines 76-82: a dict is unwrapped through its content key;
none models the early return for a dict without that key. -/
def unwrapContent : MediaContent → Option MediaContent
  | .dictEmpty => none
  | .dictVal inner => some inner
  | c => some c

/-- save_media lines 84-97: str content is base64-decoded (a decode error
returns none), bytes are used directly, anything else is an unsupported
content type. -/
def contentBytes : MediaContent → Option (List Nat)
  | .str s => b64decode s
  | .bytes b => some b
  | _ => none

/-- The byte content save_media derives from its content argument, none on
any of the early returns of lines 76-97. -/
def toBytes (content : MediaContent) : Option (List Nat) :=
  match unwrapContent content with
  | none => none
  | some c => contentBytes c

/-- MediaHandler.media_types (lines 15-26), as dict.get(media_type, []). -/
def media_types (media_type : String) : List String :=
  if media_type = "image" then ["jpg", "jpeg", "png", "gif"]
  else if media_type = "video" then ["mp4", "webm", "mov", "avi", "mkv", "3gp"]
  else if media_type = "voice" then ["wav", "mp3", "m4a"]
  else []

/-- The segment of a character list after its last occurrence of sep (the
whole list when sep is absent would need a nonempty start; the callers pick
the start value). -/
def afterLastSep (cs : List Char) (sep : Char) : List Char :=
  cs.foldl (fun acc c => if c = sep then [] else acc ++ [c]) []

/-- MediaHandler._sanitize_filename: os.path.basename, the part after the
last slash (the whole name when there is no slash). -/
def sanitize_filename (filename : String) : String :=
  if filename.data.any (fun c => c = '/') then ⟨afterLastSep filename.data '/'⟩
  else filename

/-- The extension of MediaHandler._is_valid_extension line 60:
filename.split(".")[-1].lower() when a dot is present, else empty. -/
def extOf (filename : String) : String :=
  if filename.data.any (fun c => c = '.') then
    ⟨(afterLastSep filename.data '.').map Char.toLower⟩
  else ""

/-- MediaHandler._is_valid_extension (lines 58-63). -/
def is_valid_extension (filename media_type : String) : Bool :=
  (media_types media_type).contains (extOf filename)

/-- The index of the extension dot for os.path.splitext: the last dot that
has some non-dot character before it (leading dots never start an
extension). -/
def extDotIdx (cs : List Char) : Option Nat :=
  ((List.range cs.length).filter (fun i =>
    cs.getD i ' ' == '.' &&
      (List.range i).any (fun j => !(cs.getD j ' ' == '.')))).getLast?

/-- os.path.splitext on a basename. -/
def splitext (s : String) : String × String :=
  match extDotIdx s.data with
  | none => (s, "")
  | some i => (⟨s.data.take i⟩, ⟨s.data.drop i⟩)

/-- The on-disk path save_media writes (lines 110-124): the media directory
for the kind plus the unique file name base_timestamp_random.ext, with the
timestamp and the random suffix passed in as parameters. -/
def storedPath (media_type fn timestamp randomStr : String) : String :=
  let se := splitext fn
  "media/" ++ media_type ++ "s/" ++ se.1 ++ "_" ++ timestamp ++ "_" ++
    randomStr ++ se.2

/-- MediaHandler.save_media (lines 71-151).  Every raise inside the body is
caught by the enclosing try and returned as None, modelled by none; the
chunked file write of lines 127-137 is external I/O and is modelled as
succeeding with the computed path. -/
def save_media (content : MediaContent) (media_type filename : String)
    (timestamp randomStr : String) : Option String :=
  match toBytes content with
  | none => none
  | some file_content =>
      if file_content = [] then none
      else if ¬ (media_type = "image" ∨ media_type = "video" ∨
          media_type = "voice") then none
      else
        let fn := sanitize_filename filename
        if is_valid_extension fn media_type = false then none
        else some (storedPath media_type fn timestamp randomStr)

/-! ## Concrete example records used by witnesses and counterexamples -/

/-- A validated text record rejected by the time-of-day policy. -/
def mRejected : Message :=
  { client_id := "c", content := "hi", message_type := .text
    client_timestamp := 0, timezone := "UTC", is_accepted := false
    status_message :=
      some "Text messages are only accepted between 5 AM and midnight" }

/-- A validated accepted text record. -/
def mTextAccepted : Message :=
  { client_id := "c", content := "hello", message_type := .text
    client_timestamp := 0, timezone := "UTC" }

/-- A validated accepted voice record. -/
def mVoiceAccepted : Message :=
  { client_id := "c", content := "", message_type := .voice
    client_timestamp := 0, timezone := "UTC", filename := some "a.mp3"
    binary_content := some "AAAA" }

/-- The minutes figure as the specification words it, N equals the ceiling
of seconds_remaining over 60.  Modelled from the spec for comparison with
the code's formula; the code itself uses int(time_remaining / 60) + 1. -/
def spec_ceil_minutes (seconds : Nat) : Nat := (seconds + 59) / 60

/-! ## C1: rejected records -/

/-- C1: for every validated record with is_accepted = false the processor
emits exactly one reply, of reply_type text, whose body is the record's
status_message; but it returns before db.save_message, so no message row is
persisted (saved = none), contradicting the persistence half of the
claim. -/
theorem rejected_record_one_reply_not_persisted (m : Message)
    (mediaResult : Option String) (rateStatus : RateLimitStatus)
    (llmResponse : Except String String) (h : m.is_accepted = false) :
    process_message m mediaResult rateStatus llmResponse =
      { replies := [⟨m.status_message.getD "", "text"⟩]
        saved := none
        savedReplies := [] } := by
  simp [process_message, h]

/-- Witness: the rejected text record produces the single rejection reply
and no persisted row. -/
theorem rejected_record_one_reply_not_persisted_witness :
    process_message mRejected none ⟨false, none⟩ (.ok "x") =
      { replies :=
          [⟨"Text messages are only accepted between 5 AM and midnight",
            "text"⟩]
        saved := none
        savedReplies := [] } :=
  rejected_record_one_reply_not_persisted mRejected none ⟨false, none⟩
    (.ok "x") rfl

/-! ## C2: the 30-minute rate-limit latch -/

/-- C2: more than 30 minutes after a 429 latched the limit at instant t,
the status read get_rate_limit_status still reports rate_limited = true
(with a negative time_remaining) - the expiry check lives only in
is_rate_limited, which does report false and clear the latch - and the
processor, which reads status through get_rate_limit_status, still emits
the busy reply for an accepted text message. -/
theorem stale_latch_status_read (t now : Int) (m : Message)
    (llmResponse : Except String String)
    (h : now - t > rate_limit_duration) (hm : m.is_accepted = true)
    (ht : m.message_type = .text) :
    (get_rate_limit_status (some t) now).rate_limited = true ∧
    (is_rate_limited (some t) now).1 = false ∧
    (process_message m none (get_rate_limit_status (some t) now)
        llmResponse).replies =
      [⟨busyReply (rate_limit_duration - (now - t)) m.content, "text"⟩] := by
  refine ⟨rfl, ?_, ?_⟩
  · simp [is_rate_limited, h]
  · simp [process_message, hm, process_message_core, ht,
      process_after_save, get_rate_limit_status]

/-- Witness: latch at t = 0, status read at now = 1860 s (31 minutes):
get_rate_limit_status still says rate_limited, is_rate_limited says not,
and the processor emits a busy reply quoting a nonpositive wait. -/
theorem stale_latch_status_read_witness :
    (get_rate_limit_status (some 0) 1860).rate_limited = true ∧
    (is_rate_limited (some 0) 1860).1 = false ∧
    (process_message mTextAccepted none (get_rate_limit_status (some 0) 1860)
        (.ok "x")).replies =
      [⟨busyReply (rate_limit_duration - (1860 - 0)) mTextAccepted.content,
        "text"⟩] :=
  stale_latch_status_read 0 1860 mTextAccepted (.ok "x") (by decide) rfl rfl

/-! ## C3: the busy-reply minutes figure -/

/-- C3 counterexample: at seconds_remaining = 1500 the emitted reply says
26 minutes, while the ceiling formula of the claim gives 25; the claim's
two parts (the ceiling formula and the 26-minute expectation) cannot both
hold, and the code follows the 26-minute one. -/
theorem busy_minutes_not_ceiling :
    (process_message mTextAccepted none ⟨true, some 1500⟩
        (.ok "ignored")).replies =
      [⟨"System is currently busy. Please try again in 26 minutes. (Original message: hello...)",
        "text"⟩] ∧
    spec_ceil_minutes 1500 = 25 ∧ (26 : Nat) ≠ 25 :=
  ⟨rfl, rfl, by decide⟩

/-- C3 amended: for an accepted text message under a rate-limited status
with seconds_remaining S, the processor emits exactly one text reply of the
busy form whose minutes figure is int(S / 60) + 1 (truncating division plus
one, not the ceiling), and at S = 1500 that figure is 26. -/
theorem busy_reply_minutes (m : Message) (S : Int)
    (llmResponse : Except String String) (hm : m.is_accepted = true)
    (ht : m.message_type = .text) :
    (process_message m none ⟨true, some S⟩ llmResponse).replies =
      [⟨"System is currently busy. Please try again in " ++
          toString (Int.tdiv S 60 + 1) ++
          " minutes. (Original message: " ++ m.content.take 30 ++ "...)",
        "text"⟩] ∧
    Int.tdiv 1500 60 + 1 = 26 := by
  refine ⟨?_, by decide⟩
  simp [process_message, hm, process_message_core, ht, process_after_save,
    busyReply]

/-- Witness: the amended minutes formula at S = 1500 on the accepted text
record. -/
theorem busy_reply_minutes_witness :
    (process_message mTextAccepted none ⟨true, some 1500⟩
        (.ok "x")).replies =
      [⟨"System is currently busy. Please try again in " ++
          toString (Int.tdiv 1500 60 + 1) ++
          " minutes. (Original message: " ++
          mTextAccepted.content.take 30 ++ "...)", "text"⟩] ∧
    Int.tdiv 1500 60 + 1 = 26 :=
  busy_reply_minutes mTextAccepted 1500 (.ok "x") rfl rfl

/-! ## C4: static media replies for accepted media messages -/

/-- C4 counterexample: an accepted voice message processed while the LLM
port reports rate_limited = true gets a single busy text reply and no voice
reply at all, so the unconditional claim fails. -/
theorem rate_limited_voice_no_voice_reply :
    countType "voice"
        (process_message mVoiceAccepted (some "media/voices/a.mp3")
          ⟨true, some 120⟩ (.ok "r")).replies = 0 ∧
    (process_message mVoiceAccepted (some "media/voices/a.mp3")
        ⟨true, some 120⟩ (.ok "r")).replies.length = 1 :=
  ⟨rfl, rfl⟩

/-- C4 amended: for every accepted message of a media kind whose filename
and binary content are present, whose media save succeeds, and whose
rate-limit status read reports not rate-limited, the reply list is the text
reply followed by exactly one voice reply carrying the static mp3 URL,
followed for video and image kinds by exactly one image reply carrying the
static png URL; so the text reply precedes the static-media replies and
voice precedes image. -/
theorem accepted_media_static_replies (m : Message) (p : String)
    (rateStatus : RateLimitStatus) (llmResponse : Except String String)
    (hacc : m.is_accepted = true)
    (hmt : m.message_type = .voice ∨ m.message_type = .video ∨
      m.message_type = .image)
    (hfn : falsyOpt m.filename = false)
    (hbin : falsyOpt m.binary_content = false)
    (hrl : rateStatus.rate_limited = false) :
    (process_message m (some p) rateStatus llmResponse).replies =
      ⟨"Received your " ++ m.message_type.value ++ " message", "text"⟩ ::
        ⟨mp3Path, "voice"⟩ ::
        (if m.message_type = .video ∨ m.message_type = .image then
          [⟨pngPath, "image"⟩] else []) ∧
    countType "voice"
        (process_message m (some p) rateStatus llmResponse).replies = 1 ∧
    countType "image"
        (process_message m (some p) rateStatus llmResponse).replies =
      (if m.message_type = .video ∨ m.message_type = .image then 1 else 0) ∧
    countType "text"
        (process_message m (some p) rateStatus llmResponse).replies = 1 := by
  have hcore : process_message m (some p) rateStatus llmResponse =
      process_after_save m p rateStatus llmResponse := by
    rcases hmt with h | h | h <;>
      simp [process_message, hacc, process_message_core, h, hfn, hbin]
  rcases hmt with h | h | h <;>
    simp [hcore, process_after_save, hrl, textReplyBody, h, countType,
      mp3Path, pngPath, MessageType.value]

/-- Witness: the accepted voice record under a clear rate-limit status
produces text then voice replies and those counts. -/
theorem accepted_media_static_replies_witness :
    (process_message mVoiceAccepted (some "media/voices/a.mp3")
        ⟨false, none⟩ (.ok "r")).replies =
      ⟨"Received your " ++ mVoiceAccepted.message_type.value ++ " message",
        "text"⟩ ::
        ⟨mp3Path, "voice"⟩ ::
        (if mVoiceAccepted.message_type = .video ∨
            mVoiceAccepted.message_type = .image then
          [⟨pngPath, "image"⟩] else []) ∧
    countType "voice"
        (process_message mVoiceAccepted (some "media/voices/a.mp3")
          ⟨false, none⟩ (.ok "r")).replies = 1 ∧
    countType "image"
        (process_message mVoiceAccepted (some "media/voices/a.mp3")
          ⟨false, none⟩ (.ok "r")).replies =
      (if mVoiceAccepted.message_type = .video ∨
          mVoiceAccepted.message_type = .image then 1 else 0) ∧
    countType "text"
        (process_message mVoiceAccepted (some "media/voices/a.mp3")
          ⟨false, none⟩ (.ok "r")).replies = 1 :=
  accepted_media_static_replies mVoiceAccepted "media/voices/a.mp3"
    ⟨false, none⟩ (.ok "r") rfl (Or.inl rfl) rfl rfl rfl

/-! ## C5: the empty-content check -/

/-- C5 counterexample: a text frame with empty content but a filename key
passes validation (the source tests `not content and not filename`), so
empty text content alone does not fail with EmptyContent. -/
theorem empty_text_with_filename_accepted :
    validate_message (fun _ _ => 12) 0
        ⟨none, some "text", some "", some "a.txt", none, false⟩ "c" "UTC" =
      .ok { client_id := "c", content := "", message_type := .text
            client_timestamp := 0, timezone := "UTC"
            filename := some "a.txt", binary_content := none
            is_accepted := true, status_message := none
            is_system := false } := rfl

/-- C5 amended: a frame classified as text fails with the EmptyContent
error exactly when its content is absent or empty and its filename is also
absent or empty. -/
theorem empty_content_error_iff (tzHour : Int → String → Nat) (now : Int)
    (f : FrameData) (client_id timezone : String)
    (htype : frameTypeStr f = "text") (hsys : f.is_system = false) :
    (validate_message tzHour now f client_id timezone =
        .error "Message content cannot be empty" ↔
      f.content.getD "" = "" ∧ falsyOpt f.filename = true) := by
  simp only [validate_message, htype, hsys]
  by_cases hc : f.content.getD "" = "" ∧ falsyOpt f.filename = true
  · simp [messageTypeValues, parseMessageType, hc]
  · simp only [messageTypeValues, parseMessageType]
    simp [hc]

/-- A text frame with empty content and no filename. -/
def fEmptyContent : FrameData := ⟨none, some "text", some "", none, none, false⟩

/-- Witness: the empty text frame without filename is rejected with the
EmptyContent error. -/
theorem empty_content_error_iff_witness :
    validate_message (fun _ _ => 12) 0 fEmptyContent "c" "UTC" =
      .error "Message content cannot be empty" :=
  (empty_content_error_iff (fun _ _ => 12) 0 fEmptyContent "c" "UTC"
    rfl rfl).mpr ⟨rfl, rfl⟩

/-! ## C6: the time-of-day policy table -/

/-- C6: acceptance is decided by the local hour of the client timestamp
under the declared timezone: text on [5, 24), voice on [8, 12), video on
[20, 24), each rejection carrying exactly the documented string; and every
non-system record the validator returns carries is_accepted and
status_message exactly as decided by is_time_allowed on its timestamp,
type and timezone. -/
theorem time_of_day_policy (tzHour : Int → String → Nat) (t : Int)
    (tz : String) :
    ((is_time_allowed tzHour t .text tz).1 = true ↔
      5 ≤ tzHour t tz ∧ tzHour t tz < 24) ∧
    ((is_time_allowed tzHour t .text tz).1 = false →
      (is_time_allowed tzHour t .text tz).2 =
        "Text messages are only accepted between 5 AM and midnight") ∧
    ((is_time_allowed tzHour t .voice tz).1 = true ↔
      8 ≤ tzHour t tz ∧ tzHour t tz < 12) ∧
    ((is_time_allowed tzHour t .voice tz).1 = false →
      (is_time_allowed tzHour t .voice tz).2 =
        "Voice messages are only accepted between 8 AM and 12 PM") ∧
    ((is_time_allowed tzHour t .video tz).1 = true ↔
      20 ≤ tzHour t tz ∧ tzHour t tz < 24) ∧
    ((is_time_allowed tzHour t .video tz).1 = false →
      (is_time_allowed tzHour t .video tz).2 =
        "Video messages are only accepted between 8 PM and midnight") ∧
    (∀ (now : Int) (f : FrameData) (client_id : String) (m : Message),
      validate_message tzHour now f client_id tz = .ok m →
      m.is_system = false →
      m.is_accepted =
        (is_time_allowed tzHour m.client_timestamp m.message_type
          m.timezone).1 ∧
      m.status_message =
        (if (is_time_allowed tzHour m.client_timestamp m.message_type
            m.timezone).1 = true then none
         else
          some (is_time_allowed tzHour m.client_timestamp m.message_type
            m.timezone).2)) := by
  refine ⟨?_, ?_, ?_, ?_, ?_, ?_, ?_⟩
  · by_cases h : 5 ≤ tzHour t tz ∧ tzHour t tz < 24 <;> simp [is_time_allowed, h]
  · by_cases h : 5 ≤ tzHour t tz ∧ tzHour t tz < 24 <;> simp [is_time_allowed, h]
  · by_cases h : 8 ≤ tzHour t tz ∧ tzHour t tz < 12 <;> simp [is_time_allowed, h]
  · by_cases h : 8 ≤ tzHour t tz ∧ tzHour t tz < 12 <;> simp [is_time_allowed, h]
  · by_cases h : 20 ≤ tzHour t tz ∧ tzHour t tz < 24 <;> simp [is_time_allowed, h]
  · by_cases h : 20 ≤ tzHour t tz ∧ tzHour t tz < 24 <;> simp [is_time_allowed, h]
  · intro now f client_id m hok hsys
    unfold validate_message at hok
    by_cases h1 : frameTypeStr f = "system" ∨ frameTypeStr f = "heartbeat" ∨
        f.is_system = true
    · simp [h1] at hok
      rw [← hok] at hsys
      simp at hsys
    · simp only [show (frameTypeStr f = "system" ∨ frameTypeStr f = "heartbeat" ∨
        f.is_system) = False by simp [h1]] at hok
      simp only [if_false] at hok
      split at hok
      · exact absurd hok (by simp)
      · split at hok
        · exact absurd hok (by simp)
        · split at hok
          · exact absurd hok (by simp)
          · split at hok
            · exact absurd hok (by simp)
            · rw [Except.ok.injEq] at hok
              subst hok
              exact ⟨rfl, rfl⟩

/-- Witness: at hour 3 a text message is rejected with the documented
string; at hour 9 a voice message is accepted. -/
theorem time_of_day_policy_witness :
    (is_time_allowed (fun _ _ => 3) 0 .text "UTC").2 =
      "Text messages are only accepted between 5 AM and midnight" ∧
    (is_time_allowed (fun _ _ => 9) 0 .voice "UTC").1 = true :=
  ⟨(time_of_day_policy (fun _ _ => 3) 0 "UTC").2.1 (by decide),
   ((time_of_day_policy (fun _ _ => 9) 0 "UTC").2.2.1).mpr (by decide)⟩

/-! ## C7: admission-control invariants -/

/-- The two-counter admission invariant. -/
def RegInv (r : Registry) : Prop :=
  r.sending_clients.card ≤ MAX_SENDING ∧
    r.messages_processing ≤ MAX_PROCESSING

lemma regInv_step (r : Registry) (op : RegOp) (h : RegInv r) :
    RegInv (applyRegOp r op) := by
  obtain ⟨h1, h2⟩ := h
  cases op with
  | start c =>
      simp only [applyRegOp, start_sending]
      split
      · exact ⟨h1, h2⟩
      · next hlt =>
          refine ⟨?_, h2⟩
          show (insert c r.sending_clients).card ≤ MAX_SENDING
          have := Finset.card_insert_le c r.sending_clients
          simp only [MAX_SENDING] at *
          omega
  | stop c =>
      simp only [applyRegOp, stop_sending]
      split
      · exact ⟨le_trans Finset.card_erase_le h1, h2⟩
      · exact ⟨h1, h2⟩
  | acquire =>
      simp only [applyRegOp, increment_processing]
      split
      · exact ⟨h1, h2⟩
      · next hlt =>
          refine ⟨h1, ?_⟩
          show r.messages_processing + 1 ≤ MAX_PROCESSING
          simp only [MAX_PROCESSING] at *
          omega
  | release =>
      simp only [applyRegOp, decrement_processing]
      split
      · next hpos =>
          refine ⟨h1, ?_⟩
          show r.messages_processing - 1 ≤ MAX_PROCESSING
          omega
      · exact ⟨h1, h2⟩

lemma regInv_fold (ops : List RegOp) (r : Registry) (h : RegInv r) :
    RegInv (applyRegOps r ops) := by
  induction ops generalizing r with
  | nil => exact h
  | cons op rest ih => exact ih (applyRegOp r op) (regInv_step r op h)

/-- C7: from the empty registry, every sequence of start_sending,
stop_sending, increment_processing (acquire) and decrement_processing
(release) keeps the sending set at no more than 50 clients and the
processing counter at no more than 500 (it is a natural number, hence at
least 0); at either cap the acquiring operation returns false without
touching the state; and release decrements with saturation at zero. -/
theorem admission_control_invariants (ops : List RegOp) (c : String)
    (r : Registry) :
    (applyRegOps initRegistry ops).sending_clients.card ≤ MAX_SENDING ∧
    (applyRegOps initRegistry ops).messages_processing ≤ MAX_PROCESSING ∧
    (MAX_SENDING ≤ r.sending_clients.card → start_sending r c = (false, r)) ∧
    (MAX_PROCESSING ≤ r.messages_processing →
      increment_processing r = (false, r)) ∧
    (decrement_processing r).messages_processing =
      r.messages_processing - 1 := by
  obtain ⟨h1, h2⟩ := regInv_fold ops initRegistry ⟨by simp [initRegistry], by simp [initRegistry]⟩
  refine ⟨h1, h2, ?_, ?_, ?_⟩
  · intro hcap
    simp [start_sending, hcap]
  · intro hcap
    simp [increment_processing, hcap]
  · simp only [decrement_processing]
    split
    · next hpos => simp
    · next hpos =>
        show r.messages_processing = r.messages_processing - 1
        omega

/-- A registry at both caps: 50 distinct sending clients and a processing
counter of 500. -/
def cappedRegistry : Registry :=
  { sending_clients := ((List.range 50).map (fun n => toString n)).toFinset
    messages_processing := 500 }

/-- Witness: at the caps both acquisitions refuse without mutating, release
saturates, and 500 acquisitions from the empty registry respect the
processing bound. -/
theorem admission_control_invariants_witness :
    start_sending cappedRegistry "x" = (false, cappedRegistry) ∧
    increment_processing cappedRegistry = (false, cappedRegistry) ∧
    (decrement_processing cappedRegistry).messages_processing =
      cappedRegistry.messages_processing - 1 ∧
    (applyRegOps initRegistry
        (List.replicate 500 RegOp.acquire)).messages_processing ≤
      MAX_PROCESSING := by
  obtain ⟨h1, h2, h3, h4, h5⟩ :=
    admission_control_invariants (List.replicate 500 RegOp.acquire) "x"
      cappedRegistry
  exact ⟨h3 (by decide), h4 (by decide), h5, h2⟩

/-! ## C8: heartbeat timeout eviction -/

lemma not_active_preserved (c : String) (ops : List ConnOp) (st : ConnState)
    (h : c ∉ st.active_connections)
    (hops : ops.all (fun op => !(isConnectOf c op)) = true) :
    c ∉ (applyConnOps st ops).active_connections := by
  induction ops generalizing st with
  | nil => exact h
  | cons op rest ih =>
      rw [List.all_cons, Bool.and_eq_true] at hops
      obtain ⟨hop, hrest⟩ := hops
      refine ih (applyConnOp st op) ?_ hrest
      cases op with
      | connect c2 =>
          simp only [isConnectOf, Bool.not_eq_eq_eq_not, Bool.not_true] at hop
          simp only [applyConnOp, Finset.mem_insert]
          rintro (hc | hc)
          · rw [hc] at hop
            simp at hop
          · exact h hc
      | touch c2 t2 => exact h
      | disconnect c2 =>
          simp only [applyConnOp]
          intro hc
          exact h (Finset.mem_of_mem_erase hc)
      | scan now pingFails =>
          simp only [applyConnOp, heartbeat_scan]
          intro hc
          exact h (Finset.mem_of_mem_filter c hc)

/-- C8: a session whose last heartbeat is more than 60 seconds old at a
scanner pass is evicted by that pass via disconnect, hence absent from
active_connections afterwards; and it stays absent under any further
sequence of touches, disconnects and scanner passes that contains no
reconnect of that client. -/
theorem heartbeat_timeout_eviction (st : ConnState) (c : String)
    (t now : Int) (pingFails : String → Bool) (ops : List ConnOp)
    (hhb : st.last_heartbeat c = some t)
    (hstale : now - t > HEARTBEAT_TIMEOUT)
    (hops : ops.all (fun op => !(isConnectOf c op)) = true) :
    c ∉ (heartbeat_scan st now pingFails).active_connections ∧
    c ∉ (applyConnOps (heartbeat_scan st now pingFails)
        ops).active_connections := by
  have hs : staleB st now pingFails c = true := by
    simp [staleB, hhb, hstale]
  have h1 : c ∉ (heartbeat_scan st now pingFails).active_connections := by
    simp [heartbeat_scan, Finset.mem_filter, hs]
  exact ⟨h1, not_active_preserved c ops _ h1 hops⟩

/-- A liveness state with one active session whose last heartbeat was at
instant 0. -/
def connStateEx : ConnState :=
  { active_connections := {"a"}
    last_heartbeat := fun x => if x = "a" then some 0 else none }

/-- Operations after the eviction: a late pong, another scan, another
client connecting, and no reconnect of client a. -/
def connOpsEx : List ConnOp :=
  [.touch "a" 100, .scan 200 (fun _ => false), .connect "b"]

/-- Witness: client a, silent for 61 seconds, is evicted by the pass at
instant 61 and remains outside the live set over connOpsEx. -/
theorem heartbeat_timeout_eviction_witness :
    "a" ∉ (heartbeat_scan connStateEx 61 (fun _ => false)).active_connections ∧
    "a" ∉ (applyConnOps (heartbeat_scan connStateEx 61 (fun _ => false))
        connOpsEx).active_connections :=
  heartbeat_timeout_eviction connStateEx "a" 0 61 (fun _ => false) connOpsEx
    rfl (by decide) (by rfl)

/-! ## C9: totality of save_media over its failure cases -/

/-- C9 counterexample: a dict content without a content key makes
save_media return None although the content is no invalid base64 string,
the byte content is not empty, the media type is allowed, and the same
media type and filename succeed for a plain bytes content - a failure case
the claim's enumeration omits. -/
theorem save_media_dict_without_content_none :
    save_media MediaContent.dictEmpty "image" "a.png" "t" "r" = none ∧
    save_media (MediaContent.bytes [1]) "image" "a.png" "t" "r" =
      some (storedPath "image" "a.png" "t" "r") :=
  ⟨rfl, by decide⟩

/-- C9 amended: save_media is total (every failure is the value none, never
an exception) and returns either none or the stored path; it returns none
exactly when the derived byte content is unavailable (a str that fails
base64 decoding, or a dict without a content key, or a dict wrapping
something that is neither str nor bytes), or the byte content is empty, or
the media type is not image, video or voice, or the sanitized filename's
extension is not allowed for that type; and on a str content the derived
bytes are exactly the base64 decoding. -/
theorem save_media_total_cases (content : MediaContent)
    (media_type filename timestamp randomStr : String) :
    (save_media content media_type filename timestamp randomStr = none ∨
      save_media content media_type filename timestamp randomStr =
        some (storedPath media_type (sanitize_filename filename) timestamp
          randomStr)) ∧
    (save_media content media_type filename timestamp randomStr = none ↔
      toBytes content = none ∨ toBytes content = some [] ∨
      ¬ (media_type = "image" ∨ media_type = "video" ∨
        media_type = "voice") ∨
      is_valid_extension (sanitize_filename filename) media_type = false) ∧
    (∀ s : String, toBytes (.str s) = b64decode s) := by
  refine ⟨?_, ?_, fun s => rfl⟩
  · rcases h : toBytes content with _ | bs
    · simp [save_media, h]
    · simp only [save_media, h]
      split_ifs <;> simp
  · rcases h : toBytes content with _ | bs
    · simp [save_media, h]
    · simp only [save_media, h]
      split_ifs <;> simp_all

/-! ## C10: frames with no type default to text -/

/-- C10: an inbound content frame carrying neither a type nor a
message_type key is not rejected with the missing-type error: the session
handler fills in message_type = "text", the validator classifies the frame
as text both with and without that defaulting, and any record it returns
for the frame is a non-system text record. -/
theorem missing_type_defaults_to_text (tzHour : Int → String → Nat)
    (now : Int) (f : FrameData) (client_id timezone : String)
    (h1 : f.type = none) (h2 : f.message_type = none)
    (h3 : f.is_system = false) :
    (ensure_message_type f).message_type = some "text" ∧
    validate_message tzHour now (ensure_message_type f) client_id timezone ≠
      .error "Message type is required" ∧
    validate_message tzHour now f client_id timezone ≠
      .error "Message type is required" ∧
    (∀ m, validate_message tzHour now (ensure_message_type f) client_id
        timezone = .ok m →
      m.message_type = .text ∧ m.is_system = false) := by
  have hts : frameTypeStr (ensure_message_type f) = "text" := by
    simp [ensure_message_type, h2, frameTypeStr, h1, firstTruthyStr]
  have htsf : frameTypeStr f = "text" := by
    simp [frameTypeStr, h1, h2, firstTruthyStr]
  have hsys2 : (ensure_message_type f).is_system = false := by
    simp [ensure_message_type, h2, h3]
  have het : (ensure_message_type f).message_type = some "text" := by
    simp [ensure_message_type, h2]
  refine ⟨het, ?_, ?_, ?_⟩
  · intro hbad
    simp [validate_message, hts, hsys2, het, messageTypeValues,
      parseMessageType] at hbad
    split_ifs at hbad
    simp_all
  · intro hbad
    simp [validate_message, htsf, h3, h2, messageTypeValues,
      parseMessageType] at hbad
    split_ifs at hbad
    simp_all
  · intro m hok
    simp [validate_message, hts, hsys2, het, messageTypeValues,
      parseMessageType] at hok
    split_ifs at hok <;>
      (rw [Except.ok.injEq] at hok; subst hok; exact ⟨rfl, rfl⟩)

/-- A frame with neither a type nor a message_type key. -/
def fNoType : FrameData := ⟨none, none, some "hi", none, none, false⟩

/-- Witness: the keyless frame is classified as text and not rejected with
the missing-type error. -/
theorem missing_type_defaults_to_text_witness :
    validate_message (fun _ _ => 12) 0 (ensure_message_type fNoType) "c"
        "UTC" ≠ .error "Message type is required" :=
  (missing_type_defaults_to_text (fun _ _ => 12) 0 fNoType "c" "UTC"
    rfl rfl rfl).2.1
